import Mathlib

/-!
Verification of the Mindscape diagnosis backend (`unified_backend.py`).

The development shallowly embeds the data model and the three core
operations of the backend:

* `analyze_quiet_responses` / `fallback_analysis` — the analysis dispatcher
  (`unified_backend.py` lines 187–211).  In the source, both branches
  construct constant `QuietAnalysisResult` payloads (the OpenAI call is
  elided in the repository; the enabled branch returns a fixed structure).
* `save_result` — the dual sink (lines 89–128): a local JSON append and,
  when Supabase is configured, a remote insert whose `score_summary` is
  computed from the first ten answers.  The whole body sits in one outer
  `try`, and the Supabase step sits in a further inner `try`.
* `process_assessment` — the orchestrator (lines 217–253): analysis,
  alert derivation, result assembly, sink invocation.
* `get_supabase_results` — the read endpoint (lines 256–270).

Effects are made explicit: the success or failure of the local file write
and of the remote insert are boolean parameters, the two stores are a
`SinkState` that operations transform, and the HTTP response of the
orchestrator is an `Except` (error = the HTTP 500 detail).
-/

/-- Pydantic model `UserProfile` (lines 153–156). -/
structure UserProfile where
  name : String
  age : Int
  department : String
deriving DecidableEq, Repr

/-- Pydantic model `AssessmentRequest` (lines 158–164). -/
structure AssessmentRequest where
  profile : UserProfile
  answers : List String
  timestamp : String
  department_questions : List String
  quiet_responses : List String
  heart_landscape : String
deriving DecidableEq, Repr

/-- Pydantic model `QuietAnalysisResult` (lines 166–171). -/
structure QuietAnalysisResult where
  overview : String
  characteristics : List String
  quiet_analysis : String
  diagnostic_tags : List String
  alert_indicators : List String
deriving DecidableEq, Repr

/-- Pydantic model `AssessmentResult` (lines 173–181). -/
structure AssessmentResult where
  profile : UserProfile
  quiet_analysis : QuietAnalysisResult
  final_diagnosis : String
  alert : Bool
  alert_reason : Option String
  image_prompt : String
  image_url : Option String
  timestamp : String
deriving DecidableEq, Repr

/-- `fallback_analysis` (lines 203–211): the fixed fallback payload, seeded
with the profile's department in the overview. -/
def fallback_analysis (quiet_responses : List String) (profile : UserProfile) :
    QuietAnalysisResult :=
  { overview := profile.department ++ "部門での安定した状態"
  , characteristics := ["責任感", "協調性", "向上心"]
  , quiet_analysis := "フォールバック分析による評価"
  , diagnostic_tags := ["stable_state"]
  , alert_indicators := [] }

/-- `analyze_quiet_responses` (lines 187–201).  When `OPENAI_ENABLED` is
false it returns `fallback_analysis`; otherwise it returns the fixed
structure of lines 195–201 (the remote OpenAI call is elided in the source,
line 194 is a comment). -/
def analyze_quiet_responses (openai_enabled : Bool)
    (quiet_responses : List String) (profile : UserProfile) :
    QuietAnalysisResult :=
  if !openai_enabled then
    fallback_analysis quiet_responses profile
  else
    { overview := "安定した心理状態"
    , characteristics := ["バランス良好", "前向き", "適応力"]
    , quiet_analysis := "詳細分析結果"
    , diagnostic_tags := ["stable"]
    , alert_indicators := [] }

/-- Python's `answer and answer.isdigit()` on a string (line 109): the
string is non-empty and all its characters are digits. -/
def answer_scored (a : String) : Bool :=
  !a.data.isEmpty && a.data.all Char.isDigit

/-- Python's `int(answer)` on a digit string. -/
def parse_int (s : String) : Nat :=
  s.data.foldl (fun n c => n * 10 + (c.toNat - 48)) 0

/-- The `score_data` dictionary of `save_result` (lines 106–110): built only
when `answers` is a list of at least 10 entries, by enumerating the first
10 answers and recording each digit-string under key `"q<i+1>"`.  The dict
is modelled as an association list in insertion order (keys are distinct,
so insertion is append). -/
def score_data (answers : List String) : List (String × Nat) :=
  if 10 ≤ answers.length then
    (answers.take 10).enum.filterMap (fun p =>
      if answer_scored p.2 then
        some ("q" ++ toString (p.1 + 1), parse_int p.2)
      else none)
  else []

/-- One line of the local `results.json` append log (lines 93–100): the
JSON object `{id, answers, result, timestamp}`. -/
structure LogRecord where
  id : String
  answers : List String
  result : AssessmentResult
  timestamp : String
deriving DecidableEq, Repr

/-- One row of the remote `diagnostic_results` table (lines 113–118):
`{user_id, score_summary, gpt_comment, origin}`.  `gpt_comment` is the
serialized `AssessmentResult`; serialization is modelled as the identity. -/
structure RemoteRecord where
  user_id : String
  score_summary : List (String × Nat)
  gpt_comment : AssessmentResult
  origin : String
deriving DecidableEq, Repr

/-- The two persistent stores the sink writes to: the local append log
(one record per line, in order) and the remote Supabase table. -/
structure SinkState where
  localLog : List LogRecord
  remoteStore : List RemoteRecord
deriving DecidableEq, Repr

/-- Outcome of one `save_result` call: the stores afterwards, whether the
call raised to its caller, and whether the remote insert was attempted. -/
structure SinkOutcome where
  state : SinkState
  raised : Bool
  remoteAttempted : Bool
deriving DecidableEq, Repr

/-- `save_result` (lines 89–128).  Control flow of the source:

* the whole body is inside one outer `try ... except` (lines 91/127), so
  nothing ever propagates to the caller;
* the local JSON append (lines 93–100) comes first; if it raises
  (`local_ok = false`), control jumps to the outer `except` and the
  Supabase block is never reached;
* the Supabase block (lines 103–123) runs only when `SUPABASE_ENABLED`;
  its failure (`remote_ok = false`) is caught by the inner `except`
  (line 122) and does not undo the local append.

`ts` is the `datetime.now().isoformat()` of line 98. -/
def save_result (supabase_enabled local_ok remote_ok : Bool)
    (user_id : String) (answers : List String) (gpt_result : AssessmentResult)
    (ts : String) (st : SinkState) : SinkOutcome :=
  if !local_ok then
    -- the local open/dump raised: outer except catches and logs (line 127)
    { state := st, raised := false, remoteAttempted := false }
  else
    let st1 : SinkState :=
      { st with localLog := st.localLog ++ [⟨user_id, answers, gpt_result, ts⟩] }
    if supabase_enabled then
      if remote_ok then
        { state :=
            { st1 with remoteStore := st1.remoteStore ++
                [⟨user_id, score_data answers, gpt_result, "mindscape"⟩] }
        , raised := false, remoteAttempted := true }
      else
        -- the insert raised: inner except catches and logs (line 122)
        { state := st1, raised := false, remoteAttempted := true }
    else
      { state := st1, raised := false, remoteAttempted := false }

/-- Outcome of one `process_assessment` call: the HTTP response (`.ok` the
200 body, `.error` the 500 detail) and the stores afterwards. -/
structure ProcessOutcome where
  response : Except String AssessmentResult
  state : SinkState
deriving Repr

/-- `process_assessment` (lines 217–253).  Runs the analysis dispatcher,
derives `alert` / `alert_reason` (lines 226–227), assembles the
`AssessmentResult` (lines 230–239, `ts1` = the timestamp of line 238),
invokes `save_result` (lines 242–246, `ts2` = its internal timestamp) and
returns the result.  Every step of the body is total, so the
`except` branch of lines 251–253 (HTTP 500) is unreachable and the
response is always `.ok`. -/
def process_assessment (openai_enabled supabase_enabled local_ok remote_ok : Bool)
    (req : AssessmentRequest) (ts1 ts2 : String) (st : SinkState) :
    ProcessOutcome :=
  let quiet := analyze_quiet_responses openai_enabled req.quiet_responses req.profile
  let alert_flag : Bool := decide (0 < quiet.alert_indicators.length)
  let alert_reason : Option String :=
    if alert_flag then quiet.alert_indicators.head? else none
  let result : AssessmentResult :=
    { profile := req.profile
    , quiet_analysis := quiet
    , final_diagnosis := "診断完了"
    , alert := alert_flag
    , alert_reason := alert_reason
    , image_prompt := "Beautiful landscape"
    , image_url := none
    , timestamp := ts1 }
  let sink := save_result supabase_enabled local_ok remote_ok
    req.profile.name req.answers result ts2 st
  { response := Except.ok result, state := sink.state }

/-- Response body of `GET /api/supabase/results`: either `{error: msg}` or
`{status: "success", data, count}`. -/
inductive ResultsResponse where
  | err (msg : String)
  | success (data : List RemoteRecord) (count : Nat)
deriving DecidableEq, Repr

/-- `get_supabase_results` (lines 256–270).  `query` is the outcome of the
`supabase...select("*").execute()` call: `.ok` its data rows, `.error` the
exception message caught at line 269. -/
def get_supabase_results (supabase_enabled : Bool)
    (query : Except String (List RemoteRecord)) : ResultsResponse :=
  if !supabase_enabled then
    ResultsResponse.err "Supabase未設定"
  else
    match query with
    | Except.ok data => ResultsResponse.success data data.length
    | Except.error e => ResultsResponse.err e

/-! ### Sample values used by witnesses and counterexamples -/

/-- A concrete profile. -/
def sampleProfile : UserProfile := ⟨"山田", 30, "開発"⟩

/-- A concrete request (answers are the spec's concrete scenario 2 list,
quiet responses the scenario 1 list). -/
def sampleRequest : AssessmentRequest :=
  ⟨sampleProfile, ["3", "4", "x", "2", "1", "5", "2", "3", "4", "1"],
   "2026-01-01T00:00:00", [], ["I feel fine", "stable"], "forest"⟩

/-- A concrete assessment result. -/
def sampleResult : AssessmentResult :=
  ⟨sampleProfile, fallback_analysis [] sampleProfile, "診断完了", false, none,
   "Beautiful landscape", none, "2026-01-01T00:00:01"⟩

/-! ### Claims -/

/-- C1: for every valid `AssessmentRequest` (any flag configuration, any
timestamps, any prior store state), `process_assessment` returns an
`AssessmentResult` whose `alert` equals `len(analysis.alert_indicators) > 0`
and whose `alert_reason` is the first alert indicator when `alert` holds and
`none` otherwise. -/
theorem C1_alert_from_indicators (oe se lo ro : Bool) (req : AssessmentRequest)
    (ts1 ts2 : String) (st : SinkState) :
    ∃ r, (process_assessment oe se lo ro req ts1 ts2 st).response = Except.ok r ∧
      (r.alert = true ↔ 0 < r.quiet_analysis.alert_indicators.length) ∧
      r.alert_reason =
        (if r.alert then r.quiet_analysis.alert_indicators.head? else none) := by
  exact ⟨_, rfl, by simp [process_assessment], rfl⟩

/-- C2: `analyze_quiet_responses` returns one of exactly two fixed constant
results selected only by the `OPENAI_ENABLED` flag (the enabled branch
ignores all inputs; the fallback depends only on the profile's department),
both with empty `alert_indicators`; consequently every response of
`process_assessment` has `alert = false` and `alert_reason = none`. -/
theorem C2_constant_analysis_no_alert :
    (∀ e qr p, (analyze_quiet_responses e qr p).alert_indicators = []) ∧
    (∀ qr qr' p p',
      analyze_quiet_responses true qr p = analyze_quiet_responses true qr' p') ∧
    (∀ qr qr' p p', p.department = p'.department →
      analyze_quiet_responses false qr p = analyze_quiet_responses false qr' p') ∧
    (∀ oe se lo ro req ts1 ts2 st, ∃ res,
      (process_assessment oe se lo ro req ts1 ts2 st).response = Except.ok res ∧
      res.alert = false ∧ res.alert_reason = none) := by
  refine ⟨?_, ?_, ?_, ?_⟩
  · intro e qr p; cases e <;> rfl
  · intro qr qr' p p'; rfl
  · intro qr qr' p p' h
    simp [analyze_quiet_responses, fallback_analysis, h]
  · intro oe se lo ro req ts1 ts2 st
    cases oe <;> exact ⟨_, rfl, rfl, rfl⟩

/-- Witness for C2 at concrete inputs: two different quiet-response lists
and two different profiles sharing a department give the same fallback. -/
theorem C2_witness :
    analyze_quiet_responses false ["I feel fine"] ⟨"A", 30, "Dev"⟩ =
      analyze_quiet_responses false [] ⟨"B", 40, "Dev"⟩ :=
  C2_constant_analysis_no_alert.2.2.1 ["I feel fine"] [] ⟨"A", 30, "Dev"⟩
    ⟨"B", 40, "Dev"⟩ rfl

/-- C3: the dispatcher in the source is total — the remote analysis call is
elided, both branches construct constants, so it can never throw — and
`process_assessment` therefore always returns a well-formed 200 response
(never the 500 branch of lines 251–253); when remote analysis is disabled
the returned result is built from the fallback analysis. -/
theorem C3_process_never_500 (oe se lo ro : Bool) (req : AssessmentRequest)
    (ts1 ts2 : String) (st : SinkState) :
    (∃ r, (process_assessment oe se lo ro req ts1 ts2 st).response = Except.ok r) ∧
    (oe = false → ∃ r,
      (process_assessment oe se lo ro req ts1 ts2 st).response = Except.ok r ∧
      r.quiet_analysis = fallback_analysis req.quiet_responses req.profile) := by
  refine ⟨⟨_, rfl⟩, ?_⟩
  rintro rfl
  exact ⟨_, rfl, rfl⟩

/-- Witness for C3 at a concrete disabled-analysis configuration. -/
theorem C3_witness :
    ∃ r, (process_assessment false true true true sampleRequest "t1" "t2"
        ⟨[], []⟩).response = Except.ok r ∧
      r.quiet_analysis =
        fallback_analysis sampleRequest.quiet_responses sampleRequest.profile :=
  (C3_process_never_500 false true true true sampleRequest "t1" "t2" ⟨[], []⟩).2 rfl

/-- Keys `"q1"`..`"q10"` identify their position: for indices below 10 the
key determines the index. -/
theorem qkey_inj : ∀ i < 10, ∀ j < 10,
    "q" ++ toString (i + 1) = "q" ++ toString (j + 1) → i = j := by decide

/-- Positive direction of the score scan: a digit-string among the first
ten answers is recorded under the key of its 1-indexed position. -/
theorem score_mem_of_scored (answers : List String) (h10 : 10 ≤ answers.length)
    (i : Nat) (hi : i < 10) (a : String) (ha : answers[i]? = some a)
    (hs : answer_scored a = true) :
    ("q" ++ toString (i + 1), parse_int a) ∈ score_data answers := by
  rw [score_data, if_pos h10]
  rw [List.mem_filterMap]
  refine ⟨(i, a), ?_, ?_⟩
  · rw [List.mk_mem_enum_iff_getElem?, List.getElem?_take_of_lt hi]
    exact ha
  · simp [hs]

/-- Negative direction of the score scan: a non-digit entry among the first
ten answers contributes no key at all. -/
theorem score_not_mem_of_not_scored (answers : List String) (h10 : 10 ≤ answers.length)
    (i : Nat) (hi : i < 10) (a : String) (ha : answers[i]? = some a)
    (hs : answer_scored a = false) (v : Nat) :
    ("q" ++ toString (i + 1), v) ∉ score_data answers := by
  rw [score_data, if_pos h10]
  intro hmem
  rw [List.mem_filterMap] at hmem
  obtain ⟨⟨j, b⟩, hjb, hfb⟩ := hmem
  rw [List.mk_mem_enum_iff_getElem?] at hjb
  have hjlt : j < 10 := by
    by_contra hge
    rw [List.getElem?_take_eq_none (Nat.le_of_not_lt hge)] at hjb
    exact Option.noConfusion hjb
  rw [List.getElem?_take_of_lt hjlt] at hjb
  by_cases hb : answer_scored b = true
  · rw [if_pos hb] at hfb
    have hkey : "q" ++ toString (j + 1) = "q" ++ toString (i + 1) :=
      congrArg Prod.fst (Option.some.inj hfb)
    have hij : j = i := qkey_inj j hjlt i hi hkey
    subst hij
    rw [ha] at hjb
    rw [← Option.some.inj hjb] at hb
    rw [hs] at hb
    exact Bool.noConfusion hb
  · rw [if_neg hb] at hfb
    exact Option.noConfusion hfb

/-- The score summary never holds more than ten entries. -/
theorem score_len_le (answers : List String) : (score_data answers).length ≤ 10 := by
  rw [score_data]
  split
  · calc ((answers.take 10).enum.filterMap _).length
        ≤ (answers.take 10).enum.length := List.length_filterMap_le _ _
      _ = (answers.take 10).length := List.enum_length
      _ ≤ 10 := List.length_take_le _ _
  · exact Nat.zero_le _

/-- C4 counterexample: on `answers = ["3"]` the claim as stated requires the
entry `"3"` (a non-negative integer at position 1) to be recorded under
`"q1"`, but `score_data` is empty — the source only builds the summary when
the list has at least 10 entries (line 107). -/
theorem C4_cex :
    answer_scored "3" = true ∧ ("q1", 3) ∉ score_data ["3"] ∧ score_data ["3"] = [] := by
  decide

/-- C4 (amended): the score summary holds at most 10 keys, and whenever
`answers` has at least 10 entries, the summary is derived by scanning the
first 10: an entry that parses as a non-negative integer is recorded under
the 1-indexed key of its position, and a non-numeric entry contributes no
key (it is skipped without error). -/
theorem C4_score_summary (answers : List String) :
    (score_data answers).length ≤ 10 ∧
    (10 ≤ answers.length → ∀ i, i < 10 → ∀ a, answers[i]? = some a →
      ((answer_scored a = true →
        ("q" ++ toString (i + 1), parse_int a) ∈ score_data answers) ∧
       (answer_scored a = false →
        ∀ v, ("q" ++ toString (i + 1), v) ∉ score_data answers))) := by
  refine ⟨score_len_le answers, ?_⟩
  intro h10 i hi a ha
  exact ⟨fun hs => score_mem_of_scored answers h10 i hi a ha hs,
         fun hs v => score_not_mem_of_not_scored answers h10 i hi a ha hs v⟩

/-- Witness for C4 on the spec's concrete scenario 2 answer list: `"3"` at
position 1 is recorded, `"x"` at position 3 is skipped. -/
theorem C4_witness :
    ("q" ++ toString (0 + 1), parse_int "3") ∈ score_data sampleRequest.answers ∧
    ("q" ++ toString (2 + 1), 7) ∉ score_data sampleRequest.answers :=
  ⟨((C4_score_summary sampleRequest.answers).2 (by decide) 0 (by decide) "3" rfl).1 (by decide),
   ((C4_score_summary sampleRequest.answers).2 (by decide) 2 (by decide) "x" rfl).2 (by decide) 7⟩

/-- C10: when `answers` has fewer than 10 entries, `score_data` is the
empty mapping — no positional key is recorded even for entries that do
parse as non-negative integers (line 107's length guard). -/
theorem C10_short_answers_empty (answers : List String) (h : answers.length < 10) :
    score_data answers = [] := by
  rw [score_data, if_neg (Nat.not_le.mpr h)]

/-- Witness for C10 at the one-element list `["3"]`. -/
theorem C10_witness : (["3"] : List String).length < 10 ∧ score_data ["3"] = [] :=
  ⟨by decide, C10_short_answers_empty ["3"] (by decide)⟩

/-- C5 counterexample: with Supabase enabled and a healthy remote store,
a failing local append (`local_ok = false`) jumps to the outer `except`
before the Supabase block, so the remote insert is never attempted —
contradicting the claimed independence of the two steps. -/
theorem C5_cex :
    (save_result true false true "u" ["3"] sampleResult "t" ⟨[], []⟩).remoteAttempted
      = false ∧
    (save_result true false true "u" ["3"] sampleResult "t" ⟨[], []⟩).state.remoteStore
      = [] :=
  ⟨rfl, rfl⟩

/-- C5 (amended): the two sink steps are sequenced inside one `try`: a local
append failure aborts the whole call (nothing written, remote never
attempted), while a remote failure never affects the already-completed
local append; consequently any call that grows the remote store also grew
the local log first. -/
theorem C5_sink_dependency (se lo ro : Bool) (uid : String) (ans : List String)
    (res : AssessmentResult) (ts : String) (st : SinkState) :
    (lo = false →
      (save_result se lo ro uid ans res ts st).state = st ∧
      (save_result se lo ro uid ans res ts st).remoteAttempted = false) ∧
    (lo = true →
      (save_result se lo ro uid ans res ts st).state.localLog =
        st.localLog ++ [⟨uid, ans, res, ts⟩]) ∧
    ((save_result se lo ro uid ans res ts st).remoteAttempted = true →
      lo = true ∧ se = true) ∧
    ((save_result se lo ro uid ans res ts st).state.remoteStore = st.remoteStore ∨
      ((save_result se lo ro uid ans res ts st).state.remoteStore =
        st.remoteStore ++ [⟨uid, score_data ans, res, "mindscape"⟩] ∧
       (save_result se lo ro uid ans res ts st).state.localLog =
        st.localLog ++ [⟨uid, ans, res, ts⟩])) := by
  cases lo <;> cases se <;> cases ro <;>
    simp [save_result]

/-- Witness for C5 (amended) with a successful local append and a failing
remote insert: the local log grew, the remote store is untouched. -/
theorem C5_witness :
    (save_result true true false "u" ["3"] sampleResult "t" ⟨[], []⟩).state.localLog =
      [] ++ [⟨"u", ["3"], sampleResult, "t"⟩] :=
  (C5_sink_dependency true true false "u" ["3"] sampleResult "t" ⟨[], []⟩).2.1 rfl

/-- C6: `save_result` never raises to its caller — for every flag
configuration and every outcome of the local write and the remote insert
the outer `except` absorbs the failure — and `process_assessment` returns
a normal response whatever the sink does. -/
theorem C6_save_never_raises (se lo ro : Bool) (uid : String) (ans : List String)
    (res : AssessmentResult) (ts : String) (st : SinkState) :
    (save_result se lo ro uid ans res ts st).raised = false ∧
    (∀ oe req ts1 ts2 st', ∃ r,
      (process_assessment oe se lo ro req ts1 ts2 st').response = Except.ok r) := by
  refine ⟨?_, fun oe req ts1 ts2 st' => ⟨_, rfl⟩⟩
  cases lo <;> cases se <;> cases ro <;> rfl

/-- C7: with remote analysis disabled, `analyze_quiet_responses` is exactly
the fallback (and, being a total function, never raises); in particular a
request with `quiet_responses = ["I feel fine", "stable"]` yields a
response whose analysis carries `diagnostic_tags = ["stable_state"]`, with
`alert = false` and `alert_reason = none`. -/
theorem C7_fallback_scenario (se lo ro : Bool) (prof : UserProfile)
    (answers dq : List String) (ts hl ts1 ts2 : String) (st : SinkState) :
    (∀ qr, analyze_quiet_responses false qr prof = fallback_analysis qr prof) ∧
    (∃ r, (process_assessment false se lo ro
        ⟨prof, answers, ts, dq, ["I feel fine", "stable"], hl⟩ ts1 ts2 st).response =
        Except.ok r ∧
      r.quiet_analysis.diagnostic_tags = ["stable_state"] ∧
      r.alert = false ∧ r.alert_reason = none) :=
  ⟨fun qr => rfl, _, rfl, rfl, rfl, rfl⟩

/-- C8: every `save_result` call whose local append succeeds extends the
local log by exactly one record `{id, answers, result, timestamp}` at the
end — prior records untouched — whatever the Supabase flag and the remote
outcome are. -/
theorem C8_local_append (se ro : Bool) (uid : String) (ans : List String)
    (res : AssessmentResult) (ts : String) (st : SinkState) (lo : Bool)
    (h : lo = true) :
    (save_result se lo ro uid ans res ts st).state.localLog =
      st.localLog ++ [⟨uid, ans, res, ts⟩] ∧
    (save_result se lo ro uid ans res ts st).state.localLog.length =
      st.localLog.length + 1 := by
  subst h
  cases se <;> cases ro <;> simp [save_result]

/-- Witness for C8 at a concrete call with remote write failing. -/
theorem C8_witness :
    (save_result true true false "u" ["1"] sampleResult "t"
      ⟨[⟨"v", [], sampleResult, "s"⟩], []⟩).state.localLog =
      [⟨"v", [], sampleResult, "s"⟩] ++ [⟨"u", ["1"], sampleResult, "t"⟩] :=
  (C8_local_append true false "u" ["1"] sampleResult "t"
    ⟨[⟨"v", [], sampleResult, "s"⟩], []⟩ true rfl).1

/-- C9 counterexample: with the store unconfigured the endpoint returns the
literal message `"Supabase未設定"`, not the English `"store not
configured"` stated by the claim. -/
theorem C9_cex :
    get_supabase_results false (Except.ok []) = ResultsResponse.err "Supabase未設定" ∧
    ResultsResponse.err "Supabase未設定" ≠ ResultsResponse.err "store not configured" :=
  ⟨rfl, by decide⟩

/-- C9 (amended): when the remote store is unconfigured the endpoint
returns the structured payload `{error: "Supabase未設定"}` ("Supabase not
configured") and raises nothing; when configured and reachable it returns
`{status: "success", data, count}` with `count` the number of returned
records; a reachable-but-failing query yields `{error: message}`. -/
theorem C9_results_endpoint :
    (∀ q, get_supabase_results false q = ResultsResponse.err "Supabase未設定") ∧
    (∀ data, get_supabase_results true (Except.ok data) =
      ResultsResponse.success data data.length) ∧
    (∀ e, get_supabase_results true (Except.error e) = ResultsResponse.err e) :=
  ⟨fun q => rfl, fun data => rfl, fun e => rfl⟩
